import Mathlib

/-!
# Verification of the pyscanstr position lifecycle engine

Shallow embedding of the slot state machine, DCA deployment policy, exit
policy evaluator and reconciliation passes of the `pyscanstr` repository
(`src/pair_trader.py` and `src/live_trader.py`), together with proofs of the
spec's testable properties.

Conventions of the embedding:
* Python floats are modelled as exact rationals (`ℚ`); raw on-chain token
  amounts (Python ints) as `ℤ`.
* ISO time strings are modelled as rational timestamps measured in minutes;
  the empty string is the timestamp `0`.
* Network effects (price lookups, swap submission, balance polling,
  confirmation waits) are modelled by environment records holding the
  outcome the network produced for the tick: `none` for a failed swap,
  `some x` for a successful one, the observed balance delta for a
  confirmation poll, and so on.
* The Telegram `notify` calls of `pair_trader.process_slot` are modelled as
  an emitted event list, in the order the source emits them; this is the
  only instrumentation added to the translation.
* Exit reasons are Python format strings in the source; they are modelled
  as constructors of an inductive type tagging which rule fired (the
  interpolated numbers are dropped).
-/

namespace PyScanStr

/-! ## pair_trader.py — constants and MC-tiered parameter tables -/

/-- Source `DCA_SPLITS = [0.15, 0.25, 0.60]` (step1 / step2 / step3). -/
def DCA_SPLITS : List ℚ := [15/100, 25/100, 60/100]

/-- Source `MIN_TRADE_SOL = 0.002` — minimum SOL to attempt a buy. -/
def MIN_TRADE_SOL : ℚ := 2/1000

/-- Source `get_entry_dip(mc)` — how far to wait for price to dip before Step 1 entry. -/
def get_entry_dip (mc : ℚ) : ℚ :=
  if mc < 500000 then 10
  else if mc < 2000000 then 7
  else if mc < 10000000 then 5
  else 3

/-- Source `get_dca_drops(mc)` — Step 2 and Step 3 drop % from the Step 1 entry price. -/
def get_dca_drops (mc : ℚ) : ℚ × ℚ :=
  if mc < 500000 then (15, 35)
  else if mc < 2000000 then (10, 25)
  else if mc < 10000000 then (7, 18)
  else (5, 12)

/-- Source `get_trail_params(mc)` — `(activate_pct, trail_pct)`; the source returns
`(12.0, 4.0)` for every market cap. -/
def get_trail_params (_mc : ℚ) : ℚ × ℚ := (12, 4)

/-! ## pair_trader.py — data classes -/

/-- The `SlotBudget` dataclass. -/
structure SlotBudget where
  slot_id : ℕ
  budget_sol : ℚ
  start_budget_sol : ℚ
  total_profit_sol : ℚ := 0
  trade_count : ℕ := 0
  deriving DecidableEq

/-- The `PairSlot` dataclass.  `status` is one of `"empty" | "watching" | "open"`,
as in the source. -/
structure PairSlot where
  slot_id : ℕ
  status : String
  token_address : String := ""
  symbol : String := ""
  entry_mc : ℚ := 0
  watch_price : ℚ := 0
  watch_time : ℚ := 0
  entry_dip_pct : ℚ := 0
  dca_step : ℕ := 0
  entry_price : ℚ := 0
  step2_price : ℚ := 0
  step3_price : ℚ := 0
  dca_avg_price : ℚ := 0
  total_sol_invested : ℚ := 0
  step1_sol : ℚ := 0
  step2_sol : ℚ := 0
  step3_sol : ℚ := 0
  token_amount : ℚ := 0
  max_pnl_pct : ℚ := 0
  trail_active : Bool := false
  peak_price : ℚ := 0
  entry_time : ℚ := 0
  exit_time : ℚ := 0
  exit_price : ℚ := 0
  exit_pnl_pct : ℚ := 0
  exit_reason : String := ""
  exit_tx : String := ""
  deriving DecidableEq

/-! ## pair_trader.py — adaptive entry-dip history -/

/-- One record of the per-token `pair_history.json` trade list, restricted to
the keys `get_adjusted_entry_dip` consults.  The source reads the dictionary
with `t.get("pnl_pct", 0)` and `t.get("entry_dip_used", base)`, so both keys
may be absent; absence is modelled by `none`. -/
structure PastTrade where
  pnl_pct : Option ℚ := none
  entry_dip_used : Option ℚ := none
  deriving DecidableEq

/-- Python's `round` ties-to-even on the integer grid (banker's rounding),
idealised to exact rational arithmetic. -/
def round_half_even (r : ℚ) : ℤ :=
  if Int.fract r = 1/2 then (if ⌊r⌋ % 2 = 0 then ⌊r⌋ else ⌊r⌋ + 1) else round r

/-- Python's `round(x, 1)`: round to the nearest multiple of `1/10`,
ties to even. -/
def py_round_1 (x : ℚ) : ℚ := (round_half_even (x * 10) : ℚ) / 10

/-- Source `get_adjusted_entry_dip(token_address, mc)`.  The source loads the trade
history for `token_address` from `pair_history.json`; here the history list
for that address is passed directly. -/
def get_adjusted_entry_dip (trades : List PastTrade) (mc : ℚ) : ℚ :=
  let base := get_entry_dip mc
  if trades.length < 2 then base
  else
    let profitable := trades.filter (fun t => t.pnl_pct.getD 0 > 0)
    let losing := trades.filter (fun t => t.pnl_pct.getD 0 ≤ 0)
    if profitable.isEmpty then
      -- All losses — try entering slightly deeper
      min (base * (13/10)) (base + 5)
    else
      let avg_profitable_dip :=
        ((profitable.map (fun t => t.entry_dip_used.getD base)).sum) / profitable.length
      let avg_losing_dip :=
        if losing.isEmpty then base
        else ((losing.map (fun t => t.entry_dip_used.getD base)).sum) / losing.length
      let adjusted :=
        if avg_profitable_dip > avg_losing_dip then (base + avg_profitable_dip) / 2 else base
      -- Cap adjustment to ±50% of base
      py_round_1 (max (base * (1/2)) (min (base * (3/2)) adjusted))

/-! ## pair_trader.py — budget ledger -/

/-- One freshly initialised budget of `init_budgets`: each slot starts with
`budget_sol = start_budget_sol = per_slot` and no recorded profit, where
`per_slot = (usable * WALLET_UTILIZATION) / NUM_SLOTS` is computed from the
wallet balance (a network value, passed in here). -/
def init_budget (id : ℕ) (per_slot : ℚ) : SlotBudget :=
  { slot_id := id, budget_sol := per_slot, start_budget_sol := per_slot }

/-- The budget update of `_close_slot` after a confirmed sell: compound the
realized profit back into this slot
(`budget.budget_sol += profit_sol; budget.total_profit_sol += profit_sol;
budget.trade_count += 1`). -/
def settle_close (b : SlotBudget) (profit_sol : ℚ) : SlotBudget :=
  { b with
    budget_sol := b.budget_sol + profit_sol
    total_profit_sol := b.total_profit_sol + profit_sol
    trade_count := b.trade_count + 1 }

/-- The persisted-budget invariant of the spec:
`current = start + lifetime_profit`. -/
def budget_invariant (b : SlotBudget) : Prop :=
  b.budget_sol = b.start_budget_sol + b.total_profit_sol

/-! ## pair_trader.py — tick environment and events -/

/-- The network outcomes one `process_slot` tick can consume.  `buy_result`
and `sell_result` are the returns of `buy_tokens` / `sell_tokens` (`none` =
no transaction landed); `rewatch_price`/`rewatch_mc` are the
`get_token_price_and_mc` lookup `_close_slot` performs before re-watching
(`0` = unavailable); `history` is the `pair_history.json` record list for
the slot's token; `now` is the wall clock. -/
structure TickEnv where
  buy_result : Option ℚ := none
  sell_result : Option ℚ := none
  rewatch_price : ℚ := 0
  rewatch_mc : ℚ := 0
  history : List PastTrade := []
  now : ℚ := 0
  deriving DecidableEq

/-- Source `buy_tokens` refuses amounts below `MIN_TRADE_SOL` before touching the
network; otherwise the tick's network outcome decides. -/
def buy_tokens_result (env : TickEnv) (sol_amount : ℚ) : Option ℚ :=
  if sol_amount < MIN_TRADE_SOL then none else env.buy_result

/-- One event per `notify` call / state transition a tick can emit, in
source order. -/
inductive TickEvent where
  | entered
  | step2Filled
  | step3Filled
  | sellFailed
  | closed
  | rewatch
  deriving DecidableEq

/-! ## pair_trader.py — slot state machine -/

/-- Source `_reset_slot(slot)` — clear all trade state (keeps `slot_id`). -/
def reset_slot (s : PairSlot) : PairSlot :=
  { slot_id := s.slot_id, status := "empty" }

/-- Source `_close_slot` — execute the sell and update slot + budget state; on a
confirmed sell the slot immediately re-arms to Watching on the same token. -/
def close_slot (env : TickEnv) (slot : PairSlot) (budget : SlotBudget)
    (price_sol : ℚ) (reason : String) : PairSlot × SlotBudget × List TickEvent :=
  match env.sell_result with
  | none => (slot, budget, [TickEvent.sellFailed])
  | some sol_received =>
    let pnl_pct : ℚ :=
      if slot.total_sol_invested > 0 then
        ((sol_received - slot.total_sol_invested) / slot.total_sol_invested) * 100
      else 0
    let profit_sol := sol_received - slot.total_sol_invested
    let slot := { slot with
      exit_price := price_sol
      exit_time := env.now
      exit_pnl_pct := pnl_pct
      exit_reason := reason
      exit_tx := "TX" }
    let budget := settle_close budget profit_sol
    let prev_addr := slot.token_address
    let prev_symbol := slot.symbol
    let prev_mc := slot.entry_mc
    let slot := reset_slot slot
    let mc_for_dip := if env.rewatch_mc > 0 then env.rewatch_mc else prev_mc
    let slot := { slot with
      token_address := prev_addr
      symbol := prev_symbol
      status := "watching"
      watch_price := if env.rewatch_price > 0 then env.rewatch_price else price_sol
      watch_time := env.now
      entry_dip_pct := get_adjusted_entry_dip env.history mc_for_dip }
    (slot, budget, [TickEvent.closed, TickEvent.rewatch])

/-- The Watching branch of `process_slot`: ratchet the reference price up,
then attempt the Step 1 entry when the dip from the (ratcheted) reference
reaches the armed dip percentage. -/
def watch_tick (env : TickEnv) (slot : PairSlot) (budget : SlotBudget)
    (price_sol mc : ℚ) : PairSlot × SlotBudget × List TickEvent :=
  let slot := if price_sol > slot.watch_price then { slot with watch_price := price_sol } else slot
  let dip_from_watch := ((slot.watch_price - price_sol) / slot.watch_price) * 100
  if dip_from_watch ≥ slot.entry_dip_pct then
    let step1_sol := budget.budget_sol * DCA_SPLITS[0]!
    match buy_tokens_result env step1_sol with
    | none => (slot, budget, [])
    | some tokens =>
      let drops := get_dca_drops mc
      ({ slot with
          entry_price := price_sol
          step2_price := price_sol * (1 - drops.1 / 100)
          step3_price := price_sol * (1 - drops.2 / 100)
          dca_avg_price := price_sol
          dca_step := 1
          step1_sol := step1_sol
          total_sol_invested := step1_sol
          token_amount := tokens
          entry_mc := mc
          entry_time := env.now
          peak_price := price_sol
          status := "open" }, budget, [TickEvent.entered])
  else (slot, budget, [])

/-- The Step 2 fill update of `process_slot` (lines 615–622): record the
tranche, advance the step counter and recompute the running average fill
price from the original entry price and this fill's price. -/
def step2_fill (slot : PairSlot) (budget : SlotBudget) (price_sol tokens : ℚ) : PairSlot :=
  let step2_sol := budget.budget_sol * DCA_SPLITS[1]!
  let total := slot.total_sol_invested + step2_sol
  { slot with
    step2_sol := step2_sol
    total_sol_invested := total
    token_amount := slot.token_amount + tokens
    dca_step := 2
    dca_avg_price := slot.entry_price * (slot.step1_sol / total) + price_sol * (step2_sol / total) }

/-- The Step 3 fill update of `process_slot` (lines 633–640): record the
tranche, advance the step counter and recompute the capital-weighted
average fill price. -/
def step3_fill (slot : PairSlot) (budget : SlotBudget) (price_sol tokens : ℚ) : PairSlot :=
  let step3_sol := budget.budget_sol * DCA_SPLITS[2]!
  let total := slot.total_sol_invested + step3_sol
  let prev_weight := total - step3_sol
  { slot with
    step3_sol := step3_sol
    total_sol_invested := total
    token_amount := slot.token_amount + tokens
    dca_step := 3
    dca_avg_price := (slot.dca_avg_price * prev_weight + price_sol * step3_sol) / total }

/-- The DCA block of the Open branch: `if dca_step == 1 and price <= step2_price`
buy Step 2, `elif dca_step == 2 and price <= step3_price` buy Step 3; a failed
buy leaves the slot unchanged. -/
def dca_phase (env : TickEnv) (slot : PairSlot) (budget : SlotBudget)
    (price_sol : ℚ) : PairSlot × List TickEvent :=
  if slot.dca_step = 1 ∧ price_sol ≤ slot.step2_price then
    match buy_tokens_result env (budget.budget_sol * DCA_SPLITS[1]!) with
    | some tokens => (step2_fill slot budget price_sol tokens, [TickEvent.step2Filled])
    | none => (slot, [])
  else if slot.dca_step = 2 ∧ price_sol ≤ slot.step3_price then
    match buy_tokens_result env (budget.budget_sol * DCA_SPLITS[2]!) with
    | some tokens => (step3_fill slot budget price_sol tokens, [TickEvent.step3Filled])
    | none => (slot, [])
  else (slot, [])

/-- The trail-arming line of the Open branch:
`if pnl_pct >= activate_pct: slot.trail_active = True`. -/
def arm_trail (slot : PairSlot) (pnl_pct activate_pct : ℚ) : PairSlot :=
  if pnl_pct ≥ activate_pct then { slot with trail_active := true } else slot

/-- The trailing-TP block of the Open branch: arm the trail once PnL reaches
the activation threshold, and close when price sits `trail_pct` below the
peak.  Runs after (not instead of) the DCA block. -/
def trail_phase (env : TickEnv) (slot : PairSlot) (budget : SlotBudget)
    (price_sol mc pnl_pct : ℚ) (evs : List TickEvent) :
    PairSlot × SlotBudget × List TickEvent :=
  let params := get_trail_params mc
  let slot := arm_trail slot pnl_pct params.1
  if slot.trail_active then
    let trail_price := slot.peak_price * (1 - params.2 / 100)
    if price_sol ≤ trail_price then
      let r := close_slot env slot budget price_sol "TRAIL"
      (r.1, r.2.1, evs ++ r.2.2)
    else (slot, budget, evs)
  else (slot, budget, evs)

/-- The Open branch of `process_slot`: compute PnL against the running
average fill price, update the PnL/price peaks, evaluate DCA triggers and
then the trailing exit. -/
def open_tick (env : TickEnv) (slot : PairSlot) (budget : SlotBudget)
    (price_sol mc : ℚ) : PairSlot × SlotBudget × List TickEvent :=
  let pnl_pct := ((price_sol - slot.dca_avg_price) / slot.dca_avg_price) * 100
  let slot := if pnl_pct > slot.max_pnl_pct then { slot with max_pnl_pct := pnl_pct } else slot
  let slot := if price_sol > slot.peak_price then { slot with peak_price := price_sol } else slot
  let dca := dca_phase env slot budget price_sol
  trail_phase env dca.1 budget price_sol mc pnl_pct dca.2

/-- Source `process_slot(slot, budget, wallet)` — one tick of the slot state
machine.  The tick's market data (`price_sol`, `mc`) and network outcomes
(`env`) are passed in; the source fetches them inside the function. -/
def process_slot (env : TickEnv) (slot : PairSlot) (budget : SlotBudget)
    (price_sol mc : ℚ) : PairSlot × SlotBudget × List TickEvent :=
  if slot.status = "empty" then (slot, budget, [])
  else if price_sol ≤ 0 then (slot, budget, [])
  else if slot.status = "watching" then watch_tick env slot budget price_sol mc
  else if slot.status = "open" then open_tick env slot budget price_sol mc
  else (slot, budget, [])

/-! ## live_trader.py — constants, configs and data classes -/

/-- Source `MAX_POSITION_SOL` (env default `0.1`). -/
def MAX_POSITION_SOL : ℚ := 1/10

/-- Source `MIN_FEE_RESERVE` (env default `0.005`). -/
def MIN_FEE_RESERVE : ℚ := 5/1000

/-- Source `VOL_DECAY_THRESHOLD` (env default `0.2`). -/
def VOL_DECAY_THRESHOLD : ℚ := 2/10

/-- One entry of `TRADE_CONFIGS`. -/
structure TradeConfig where
  target : ℚ
  stop : ℚ
  timeout_hours : ℚ
  deriving DecidableEq

/-- Source `TRADE_CONFIGS.get(trade_type, TRADE_CONFIGS["QUICK"])` — the dictionary
lookup with its `"QUICK"` fallback. -/
def TRADE_CONFIGS (trade_type : String) : TradeConfig :=
  if trade_type = "QUICK" then ⟨20, -85, 2⟩
  else if trade_type = "MOMENTUM" then ⟨37, -85, 6⟩
  else if trade_type = "GEM" then ⟨112, -85, 24⟩
  else if trade_type = "RANGE" then ⟨25, -30, 48⟩
  else ⟨20, -85, 2⟩

/-- Source `DCA_STEPS = [0.15, 0.25, 0.60]` — position allocation per step. -/
def DCA_STEPS : List ℚ := [15/100, 25/100, 60/100]

/-- Source `DCA_STEP_TRIGGERS = [0, 12, 28]` — dip (from original entry) arming each step. -/
def DCA_STEP_TRIGGERS : List ℚ := [0, 12, 28]

/-- The `TokenMetrics` dataclass (the fields the embedded code consults). -/
structure TokenMetrics where
  price : ℚ := 0
  mc : ℚ := 0
  vol_5m : ℚ := 0
  vol_1h : ℚ := 0
  buys_5m : ℤ := 0
  sells_5m : ℤ := 0
  change_5m : ℚ := 0
  liquidity : ℚ := 0
  deriving DecidableEq

/-- Source `TokenMetrics.buy_ratio` property: `buys_5m / max(1, sells_5m)`. -/
def buy_ratio_val (m : TokenMetrics) : ℚ :=
  (m.buys_5m : ℚ) / ((max 1 m.sells_5m : ℤ) : ℚ)

/-- One record of `LivePosition.dca_buys`. -/
structure DcaBuy where
  sol : ℚ
  price : ℚ
  time : ℚ
  deriving DecidableEq

/-- The `LivePosition` dataclass.  `status` is `"OPEN"` or `"CLOSED"`;
`dca_step = 0` stands for the Python `0`/`None` "unset" value of old
positions. -/
structure LivePosition where
  token_address : String
  symbol : String
  trade_type : String
  entry_price : ℚ
  entry_time : ℚ
  sol_amount : ℚ
  token_amount : ℚ
  entry_mc : ℚ
  tx_hash : String
  status : String := "OPEN"
  exit_price : ℚ := 0
  exit_time : ℚ := 0
  exit_tx : String := ""
  pnl_percent : ℚ := 0
  max_pnl_percent : ℚ := 0
  entry_vol_5m : ℚ := 0
  entry_buys_5m : ℤ := 0
  entry_sells_5m : ℤ := 0
  last_mc : ℚ := 0
  last_mc_time : ℚ := 0
  max_mc : ℚ := 0
  dca_step : ℕ := 0
  dca_total_sol : ℚ := 0
  dca_avg_price : ℚ := 0
  dca_buys : List DcaBuy := []
  deriving DecidableEq

/-! ## live_trader.py — exit policy evaluator -/

/-- The rule that fired, one constructor per `return` of
`check_exit_conditions` (the interpolated PnL/diagnostic numbers of the
returned strings are dropped). -/
inductive ExitReason where
  | target
  | trail
  | profitLock
  | emergencySave
  | dcaTimeout
  | rangeStop
  | rangeTimeout
  | stop
  | volDecay
  | dump
  | mcStall
  | quickCut
  | timeout
  deriving DecidableEq

/-- The momentum/volume-based exit block (lines 1192–1211), evaluated only
when metrics are available and the position is at least 5 minutes old. -/
def momentum_exits (pos : LivePosition) (pnl held_mins : ℚ) (m : TokenMetrics) :
    Option ExitReason :=
  if pos.entry_vol_5m > 0 ∧ m.vol_5m < pos.entry_vol_5m * VOL_DECAY_THRESHOLD ∧ pnl < -5 then
    some ExitReason.volDecay
  else if (m.sells_5m : ℚ) > (m.buys_5m : ℚ) * 2 ∧ pnl < -10 then
    some ExitReason.dump
  else if pos.max_mc > 0 ∧ m.mc < pos.max_mc * (85/100) ∧ held_mins > 15 ∧ pnl < 5 then
    some ExitReason.mcStall
  else if pos.trade_type = "QUICK" ∧ held_mins > 15 ∧ pnl < -15 ∧ buy_ratio_val m < 8/10 then
    some ExitReason.quickCut
  else none

/-- Source `check_exit_conditions(pos, pnl, metrics)`.  The holding time
(`held_mins`, derived in the source from `datetime.now()` and
`pos.entry_time`) is passed explicitly; the `timeout` comparisons
`datetime.now() - entry > timeout` become `held_mins > timeout_hours * 60`. -/
def check_exit_conditions (pos : LivePosition) (pnl held_mins : ℚ)
    (metrics : Option TokenMetrics) : Option ExitReason :=
  let config := TRADE_CONFIGS pos.trade_type
  let dca_step := if pos.dca_step = 0 then 1 else pos.dca_step
  let fully_invested := dca_step ≥ 3
  -- ===== PROFIT EXITS (always allowed) =====
  if pnl ≥ config.target then some ExitReason.target
  else if pos.max_pnl_percent ≥ 15 ∧ pnl ≤ pos.max_pnl_percent - 6 then some ExitReason.trail
  else if pos.max_pnl_percent ≥ 12 ∧ pnl ≤ 8 then some ExitReason.profitLock
  else if pos.max_pnl_percent ≥ 18 ∧ pnl ≤ 6 then some ExitReason.emergencySave
  -- ===== LOSS EXITS (only after step 3 complete) =====
  else if ¬ fully_invested then
    if held_mins > 1440 then some ExitReason.dcaTimeout else none
  else if pos.trade_type = "RANGE" then
    if pnl ≤ config.stop then some ExitReason.rangeStop
    else if held_mins > config.timeout_hours * 60 then some ExitReason.rangeTimeout
    else none
  else if pnl ≤ config.stop then some ExitReason.stop
  else
    let momentum :=
      match metrics with
      | some m => if held_mins ≥ 5 then momentum_exits pos pnl held_mins m else none
      | none => none
    match momentum with
    | some r => some r
    | none =>
      if held_mins > config.timeout_hours * 60 then some ExitReason.timeout else none

/-! ## live_trader.py — buys and their confirmation -/

/-- Network outcomes one `buy_token` call can consume: the quote's
`outAmount` (`none` = quote failed), whether `execute_swap` returned a
transaction, and the token-balance increase the escalating confirmation
polling (1 s ×10, then 2 s ×10, then a final 10 s check) eventually
observed — `none` when the balance never rose within the whole window. -/
structure BuyEnv where
  quote_out : Option ℤ := none
  swap_ok : Bool := false
  observed_increase : Option ℤ := none
  now : ℚ := 0
  deriving DecidableEq

/-- Source `buy_token(...)` — execute the Step 1 entry buy.  Returns the created
position, or `none` when the quote/swap failed or no balance increase was
confirmed within the timeout (in which case the source saves nothing). -/
def buy_token (env : BuyEnv) (token_address symbol trade_type : String)
    (current_price market_cap sol_amount : ℚ)
    (entry_metrics : Option TokenMetrics) : Option LivePosition :=
  match env.quote_out with
  | none => none
  | some out_amount =>
    if out_amount = 0 then none
    else if ¬ env.swap_ok then none
    else
      match env.observed_increase with
      | none => none   -- no tokens received after 40s: failed buy, no position saved
      | some actual_received =>
        some {
          token_address := token_address
          symbol := symbol
          trade_type := trade_type
          entry_price := current_price
          entry_time := env.now
          sol_amount := sol_amount
          token_amount := (actual_received : ℚ)
          entry_mc := market_cap
          tx_hash := "TX"
          entry_vol_5m := match entry_metrics with | some m => m.vol_5m | none => 0
          entry_buys_5m := match entry_metrics with | some m => m.buys_5m | none => 0
          entry_sells_5m := match entry_metrics with | some m => m.sells_5m | none => 0
          max_mc := market_cap
          last_mc := market_cap
          last_mc_time := env.now
          dca_step := 1
          dca_total_sol := sol_amount
          dca_avg_price := current_price
          dca_buys := [⟨sol_amount, current_price, env.now⟩] }

/-- Network outcomes one `process_dca_step` call can consume.  `raw_before`
and `raw_after` are the wallet's raw token balances before the swap and
after the confirmation waits (the source's two `asyncio.sleep` re-checks are
collapsed into the final observation). -/
structure DcaEnv where
  sol_balance : ℚ := 0
  quote_out : Option ℤ := none
  swap_ok : Bool := false
  raw_before : ℤ := 0
  raw_after : ℤ := 0
  now : ℚ := 0
  deriving DecidableEq

/-- Source `process_dca_step(pos, current_price, current_mc, entry_metrics)` —
attempt the next DCA tranche.  Returns `some` updated position when the
source returns `True` (every `False` path leaves the position unmutated,
modelled as `none`).  Note the source's deliberate behaviour on an
unconfirmed buy: when no balance increase is observed it still updates the
position, substituting the quote's `outAmount`
(`# Still update position, tokens may arrive later`). -/
def process_dca_step (env : DcaEnv) (pos : LivePosition)
    (current_price _current_mc : ℚ) : Option LivePosition :=
  let dca_step := if pos.dca_step = 0 then 1 else pos.dca_step
  if dca_step ≥ 3 then none
  else if pos.entry_price ≤ 0 then none
  else
    let dip_percent := ((pos.entry_price - current_price) / pos.entry_price) * 100
    let next_step := dca_step + 1
    let required_dip := if next_step ≤ 3 then DCA_STEP_TRIGGERS.getD (next_step - 1) 0 else 999
    if dip_percent < required_dip then none
    else
      let step_percent := if next_step ≤ 3 then DCA_STEPS.getD (next_step - 1) 0 else 0
      if step_percent ≤ 0 then none
      else
        let usable_balance := max 0 (env.sol_balance - MIN_FEE_RESERVE)
        let step_sol := min (MAX_POSITION_SOL * step_percent) (usable_balance * (1/2))
        if step_sol < 1/1000 then none
        else
          match env.quote_out with
          | none => none
          | some out_amount =>
            if out_amount = 0 then none
            else if ¬ env.swap_ok then none
            else
              let observed := max 0 (env.raw_after - env.raw_before)
              let actual_received := if observed = 0 then out_amount else observed
              let old_total_sol := if pos.dca_total_sol > 0 then pos.dca_total_sol else pos.sol_amount
              let new_total_sol := old_total_sol + step_sol
              let old_avg := if pos.dca_avg_price > 0 then pos.dca_avg_price else pos.entry_price
              let new_avg_price :=
                if new_total_sol > 0 then
                  (old_total_sol * old_avg + step_sol * current_price) / new_total_sol
                else current_price
              some { pos with
                dca_step := next_step
                dca_total_sol := new_total_sol
                dca_avg_price := new_avg_price
                dca_buys := pos.dca_buys ++ [⟨step_sol, current_price, env.now⟩]
                sol_amount := new_total_sol
                token_amount := pos.token_amount + (actual_received : ℚ) }

/-! ## live_trader.py — reconciliation passes -/

/-- The phantom-close branch of `manage_positions` (lines 1239–1259): a
tracked-OPEN position whose on-chain balance is gone is closed on the spot
with the `BALANCE_ZERO` tag and no session-stats/budget update.  `metrics`
is non-optional because the loop `continue`s earlier when the lookup
failed. -/
def manage_phantom_close (raw_amount : ℤ) (metrics : TokenMetrics) (now : ℚ)
    (pos : LivePosition) : LivePosition :=
  if pos.status = "OPEN" ∧ raw_amount ≤ 0 then
    let current_price := metrics.price
    let pnl := if current_price > 0 then
        ((current_price - pos.entry_price) / pos.entry_price) * 100
      else -100
    { pos with
      status := "CLOSED"
      exit_price := current_price
      exit_time := now
      exit_tx := "BALANCE_ZERO"
      pnl_percent := pnl }
  else pos

/-- The close half of one `sync_positions` iteration (lines 2022–2046):
an OPEN position with zero on-chain balance is marked CLOSED with the
`SYNC_SOLD` tag. -/
def sync_close_open (raw_balance : ℤ) (metrics : Option TokenMetrics) (now : ℚ)
    (pos : LivePosition) : LivePosition :=
  if raw_balance = 0 then
    let current_price := match metrics with | some m => m.price | none => 0
    let pnl := if current_price > 0 then
        ((current_price - pos.entry_price) / pos.entry_price) * 100
      else -100
    { pos with
      status := "CLOSED"
      exit_price := current_price
      exit_time := now
      exit_tx := "SYNC_SOLD"
      pnl_percent := pnl }
  else pos

/-- The reopen half of one `sync_positions` iteration (lines 2048–2071): a
position CLOSED within the last 24 h whose token balance is still positive
is re-opened.  The `p.exit_time and ...` truthiness test on the ISO string
becomes `exit_time ≠ 0` under the timestamp convention; the 24 h cutoff is
`now - 1440` minutes. -/
def sync_reopen_closed (raw_balance : ℤ) (now : ℚ) (pos : LivePosition) : LivePosition :=
  if pos.exit_time ≠ 0 ∧ pos.exit_time > now - 1440 ∧ raw_balance > 0 then
    { pos with
      status := "OPEN"
      exit_price := 0
      exit_time := 0
      exit_tx := ""
      pnl_percent := 0
      token_amount := (raw_balance : ℚ) }
  else pos

/-- How `sync_positions()` treats one position.  The source splits the
persisted list into its OPEN and CLOSED positions up front, closes
zero-balance OPEN ones and re-opens recently-CLOSED ones that still hold
tokens, writing each corrected record back over the entry with the same
`(token_address, entry_time)` key; with those keys unique this is the
per-element step below, mapped over the list.  `bal` and `metrics` are the
wallet/market lookups, keyed by token address. -/
def sync_position_step (bal : String → ℤ) (metrics : String → Option TokenMetrics)
    (now : ℚ) (p : LivePosition) : LivePosition :=
  if p.status = "OPEN" then
    sync_close_open (bal p.token_address) (metrics p.token_address) now p
  else if p.status = "CLOSED" then
    sync_reopen_closed (bal p.token_address) now p
  else p

/-- Source `sync_positions()` — the whole reconciliation pass over the persisted
position list. -/
def sync_positions (bal : String → ℤ) (metrics : String → Option TokenMetrics)
    (now : ℚ) (positions : List LivePosition) : List LivePosition :=
  positions.map (sync_position_step bal metrics now)

/-! ## Helper lemmas -/

/-- Lemma: `round_half_even` always lands on the floor or the ceiling of its
argument. -/
lemma round_half_even_mem (r : ℚ) :
    ⌊r⌋ ≤ round_half_even r ∧ round_half_even r ≤ ⌈r⌉ := by
  unfold round_half_even
  split_ifs with h h2
  · exact ⟨le_refl _, Int.floor_le_ceil r⟩
  · constructor
    · omega
    · have hr : (⌊r⌋ : ℚ) < r := by
        rcases lt_or_eq_of_le (Int.floor_le r) with h' | h'
        · exact h'
        · exfalso
          rw [Int.fract, ← h'] at h
          simp at h
      have hq : (⌊r⌋ : ℚ) < (⌈r⌉ : ℚ) := lt_of_lt_of_le hr (Int.le_ceil r)
      have : ⌊r⌋ < ⌈r⌉ := by exact_mod_cast hq
      omega
  · rw [round_eq]
    refine ⟨Int.floor_le_floor (by linarith), ?_⟩
    have : r + 1/2 ≤ (⌈r⌉ : ℚ) + 1/2 := by
      have := Int.le_ceil r
      linarith
    calc ⌊r + 1/2⌋ ≤ ⌊(⌈r⌉ : ℚ) + 1/2⌋ := Int.floor_le_floor this
    _ = ⌈r⌉ + ⌊(1/2 : ℚ)⌋ := Int.floor_int_add ⌈r⌉ (1/2)
    _ = ⌈r⌉ := by norm_num

/-- Rounding to tenths cannot leave an interval whose endpoints are exact
tenths. -/
lemma py_round_1_bounds (x lo hi : ℚ) (m n : ℤ) (hm : lo = (m : ℚ) / 10)
    (hn : hi = (n : ℚ) / 10) (h1 : lo ≤ x) (h2 : x ≤ hi) :
    lo ≤ py_round_1 x ∧ py_round_1 x ≤ hi := by
  subst hm hn
  obtain ⟨hf, hc⟩ := round_half_even_mem (x * 10)
  have hm' : m ≤ ⌊x * 10⌋ := Int.le_floor.mpr (by linarith)
  have hn' : ⌈x * 10⌉ ≤ n := Int.ceil_le.mpr (by linarith)
  unfold py_round_1
  have hml : (m : ℚ) ≤ (round_half_even (x * 10) : ℚ) := by exact_mod_cast le_trans hm' hf
  have hnl : (round_half_even (x * 10) : ℚ) ≤ (n : ℚ) := by exact_mod_cast le_trans hc hn'
  constructor <;> linarith

/-- The clamp-then-round tail of `get_adjusted_entry_dip` stays within
`[base/2, 3·base/2]` for every base the tier table can produce. -/
lemma clamp_round_in (b adjusted : ℚ) (hb : b = 10 ∨ b = 7 ∨ b = 5 ∨ b = 3) :
    b * (1/2) ≤ py_round_1 (max (b * (1/2)) (min (b * (3/2)) adjusted)) ∧
    py_round_1 (max (b * (1/2)) (min (b * (3/2)) adjusted)) ≤ b * (3/2) := by
  have hb0 : (0 : ℚ) ≤ b := by rcases hb with h | h | h | h <;> rw [h] <;> norm_num
  have h1 : b * (1/2) ≤ max (b * (1/2)) (min (b * (3/2)) adjusted) := le_max_left _ _
  have h2 : max (b * (1/2)) (min (b * (3/2)) adjusted) ≤ b * (3/2) :=
    max_le (by linarith) (min_le_left _ _)
  rcases hb with h | h | h | h <;> subst h
  · exact py_round_1_bounds _ _ _ 50 150 (by norm_num) (by norm_num) h1 h2
  · exact py_round_1_bounds _ _ _ 35 105 (by norm_num) (by norm_num) h1 h2
  · exact py_round_1_bounds _ _ _ 25 75 (by norm_num) (by norm_num) h1 h2
  · exact py_round_1_bounds _ _ _ 15 45 (by norm_num) (by norm_num) h1 h2

/-- Lemma: `get_adjusted_entry_dip` takes one of three shapes: the raw base, the
all-losses nudge, or the clamped-and-rounded history adjustment. -/
lemma get_adjusted_entry_dip_shape (trades : List PastTrade) (mc : ℚ) :
    get_adjusted_entry_dip trades mc = get_entry_dip mc ∨
    get_adjusted_entry_dip trades mc =
      min (get_entry_dip mc * (13/10)) (get_entry_dip mc + 5) ∨
    ∃ A, get_adjusted_entry_dip trades mc =
      py_round_1 (max (get_entry_dip mc * (1/2)) (min (get_entry_dip mc * (3/2)) A)) := by
  simp only [get_adjusted_entry_dip]
  split_ifs with h1 h2
  · exact Or.inl rfl
  · exact Or.inr (Or.inl rfl)
  all_goals exact Or.inr (Or.inr ⟨_, rfl⟩)

/-- The MC-tier table takes one of four values. -/
lemma get_entry_dip_cases (mc : ℚ) :
    get_entry_dip mc = 10 ∨ get_entry_dip mc = 7 ∨ get_entry_dip mc = 5 ∨ get_entry_dip mc = 3 := by
  unfold get_entry_dip
  split_ifs <;> simp

/-- Folding any profit sequence through close settlement adds the sequence's
sum to both the live budget and the lifetime profit, and never touches the
recorded starting budget. -/
lemma foldl_settle_close (profits : List ℚ) (b : SlotBudget) :
    (profits.foldl settle_close b).start_budget_sol = b.start_budget_sol ∧
    (profits.foldl settle_close b).budget_sol = b.budget_sol + profits.sum ∧
    (profits.foldl settle_close b).total_profit_sol = b.total_profit_sol + profits.sum := by
  induction profits generalizing b with
  | nil => simp
  | cons p ps ih =>
    obtain ⟨h1, h2, h3⟩ := ih (settle_close b p)
    simp only [List.foldl_cons, List.sum_cons]
    rw [h1, h2, h3]
    refine ⟨rfl, ?_, ?_⟩ <;> simp [settle_close] <;> ring

/-! ## C2 — budget conservation -/

/-- Claim C2.  Budget conservation: `init_budgets` establishes
`budget_sol = start_budget_sol + total_profit_sol`, the `_close_slot`
settlement preserves it, and after any sequence of settled closes the live
budget equals the starting budget plus the summed realized profits — no
capital is created or destroyed outside settlement. -/
theorem budget_conservation (id : ℕ) (per_slot p : ℚ) (b : SlotBudget) (profits : List ℚ)
    (hb : budget_invariant b) :
    budget_invariant (init_budget id per_slot) ∧
    budget_invariant (settle_close b p) ∧
    budget_invariant (profits.foldl settle_close (init_budget id per_slot)) ∧
    (profits.foldl settle_close (init_budget id per_slot)).budget_sol = per_slot + profits.sum := by
  obtain ⟨h1, h2, h3⟩ := foldl_settle_close profits (init_budget id per_slot)
  unfold budget_invariant at *
  refine ⟨by simp [init_budget], ?_, ?_, ?_⟩
  · simp [settle_close, hb]
    try ring
  · rw [h1, h2, h3]
    simp [init_budget]
    try ring
  · rw [h2]
    simp [init_budget]

/-- Witness for C2 at a concrete budget and profit sequence. -/
theorem budget_conservation_witness :
    budget_invariant ⟨1, (7 : ℚ)/2, 3, 1/2, 4⟩ ∧
    (budget_invariant (init_budget 1 2) ∧
     budget_invariant (settle_close ⟨1, (7 : ℚ)/2, 3, 1/2, 4⟩ (1/4)) ∧
     budget_invariant ([(1 : ℚ), -1/2, 2].foldl settle_close (init_budget 1 2)) ∧
     ([(1 : ℚ), -1/2, 2].foldl settle_close (init_budget 1 2)).budget_sol =
       2 + [(1 : ℚ), -1/2, 2].sum) := by
  constructor
  · norm_num [budget_invariant]
  · exact budget_conservation 1 2 (1/4) ⟨1, (7 : ℚ)/2, 3, 1/2, 4⟩ [(1 : ℚ), -1/2, 2]
      (by norm_num [budget_invariant])

/-! ## C10 — the history-adjusted entry dip is bounded -/

/-- Claim C10.  For every trade history and market cap,
`get_adjusted_entry_dip` stays within `[base/2, 3·base/2]` of the tier
table's `base = get_entry_dip(mc)`, and returns exactly `base` whenever
fewer than 2 past trades are recorded — the adaptive history can never push
the entry trigger outside ±50 % of the table's value. -/
theorem adjusted_entry_dip_bounded (trades : List PastTrade) (mc : ℚ) :
    (trades.length < 2 → get_adjusted_entry_dip trades mc = get_entry_dip mc) ∧
    get_entry_dip mc * (1/2) ≤ get_adjusted_entry_dip trades mc ∧
    get_adjusted_entry_dip trades mc ≤ get_entry_dip mc * (3/2) := by
  refine ⟨fun h => by simp [get_adjusted_entry_dip, h], ?_⟩
  rcases get_adjusted_entry_dip_shape trades mc with h | h | ⟨A, h⟩
  · rw [h]
    rcases get_entry_dip_cases mc with hb | hb | hb | hb <;> rw [hb] <;> norm_num
  · rw [h]
    rcases get_entry_dip_cases mc with hb | hb | hb | hb <;> rw [hb] <;>
      constructor <;> norm_num [min_def]
  · rw [h]
    exact clamp_round_in _ A (get_entry_dip_cases mc)

/-- Witness for C10 at an empty history over a small-cap token: the inner
implication fires (fewer than 2 recorded trades) and the bounds hold. -/
theorem adjusted_entry_dip_bounded_witness :
    get_adjusted_entry_dip [] 400000 = get_entry_dip 400000 ∧
    get_entry_dip 400000 * (1/2) ≤ get_adjusted_entry_dip [] 400000 ∧
    get_adjusted_entry_dip [] 400000 ≤ get_entry_dip 400000 * (3/2) :=
  ⟨(adjusted_entry_dip_bounded [] 400000).1 (by decide),
   (adjusted_entry_dip_bounded [] 400000).2⟩

/-! ## C1 — loss-based exits are suppressed before DCA step 3 -/

/-- Claim C1.  For every position whose DCA step counter is below 3,
`check_exit_conditions` never returns a loss-based exit reason (stop-loss,
volume-decay, dump-detection, MC-stall/stagnation, quick-cut, or the
per-type timeouts): only the profit exits (target, trail, profit-lock,
emergency-save) or the absolute 24-hour maximum-holding-duration timeout
can be returned. -/
theorem loss_suppression (pos : LivePosition) (pnl held_mins : ℚ)
    (metrics : Option TokenMetrics) (h : pos.dca_step < 3) :
    ∀ r, check_exit_conditions pos pnl held_mins metrics = some r →
      r = ExitReason.target ∨ r = ExitReason.trail ∨ r = ExitReason.profitLock ∨
      r = ExitReason.emergencySave ∨ r = ExitReason.dcaTimeout := by
  intro r hr
  have hfi : ¬ ((if pos.dca_step = 0 then 1 else pos.dca_step) ≥ 3) := by
    split_ifs with h0 <;> omega
  simp only [check_exit_conditions, hfi, not_false_eq_true, if_true] at hr
  split_ifs at hr <;> simp_all

/-- Witness for C1: a fully drawn-down step-1 QUICK position held past 24 h
exits only through the DCA timeout. -/
theorem loss_suppression_witness :
    ({ token_address := "tok", symbol := "TOK", trade_type := "QUICK",
       entry_price := 1, entry_time := 0, sol_amount := 1, token_amount := 100,
       entry_mc := 400000, tx_hash := "T", dca_step := 1 } : LivePosition).dca_step < 3 ∧
    check_exit_conditions
      { token_address := "tok", symbol := "TOK", trade_type := "QUICK",
        entry_price := 1, entry_time := 0, sol_amount := 1, token_amount := 100,
        entry_mc := 400000, tx_hash := "T", dca_step := 1 }
      (-50) 2000 none = some ExitReason.dcaTimeout ∧
    (ExitReason.dcaTimeout = ExitReason.target ∨ ExitReason.dcaTimeout = ExitReason.trail ∨
      ExitReason.dcaTimeout = ExitReason.profitLock ∨
      ExitReason.dcaTimeout = ExitReason.emergencySave ∨
      ExitReason.dcaTimeout = ExitReason.dcaTimeout) :=
  ⟨by decide, by decide,
   loss_suppression
     { token_address := "tok", symbol := "TOK", trade_type := "QUICK",
       entry_price := 1, entry_time := 0, sol_amount := 1, token_amount := 100,
       entry_mc := 400000, tx_hash := "T", dca_step := 1 }
     (-50) 2000 none (by decide) ExitReason.dcaTimeout (by decide)⟩

/-! ## C9 — balance-zero reconciliation is applied exactly once -/

/-- One reconciliation step is a per-position fixed point: re-running it on
its own output changes nothing. -/
lemma sync_position_step_idem (bal : String → ℤ) (metrics : String → Option TokenMetrics)
    (now : ℚ) (p : LivePosition) :
    sync_position_step bal metrics now (sync_position_step bal metrics now p) =
      sync_position_step bal metrics now p := by
  unfold sync_position_step sync_close_open sync_reopen_closed
  split_ifs <;> simp_all

/-- Claim C9.  A position believed OPEN whose actual on-chain balance is zero
is closed by one reconciliation pass with the balance-zero exit tag
(`SYNC_SOLD` in `sync_positions`, `BALANCE_ZERO` in the `manage_positions`
phantom-close branch), and running the pass again on the resulting state
changes nothing: the correction is never double-applied. -/
theorem reconciliation_balance_zero (bal : String → ℤ)
    (metrics : String → Option TokenMetrics)
    (m : TokenMetrics) (now : ℚ) (positions : List LivePosition)
    (pos : LivePosition) (h1 : pos.status = "OPEN") (h2 : bal pos.token_address = 0) :
    (sync_position_step bal metrics now pos).status = "CLOSED" ∧
    (sync_position_step bal metrics now pos).exit_tx = "SYNC_SOLD" ∧
    (manage_phantom_close (bal pos.token_address) m now pos).status = "CLOSED" ∧
    (manage_phantom_close (bal pos.token_address) m now pos).exit_tx = "BALANCE_ZERO" ∧
    sync_positions bal metrics now (sync_positions bal metrics now positions) =
      sync_positions bal metrics now positions := by
  refine ⟨?_, ?_, ?_, ?_, ?_⟩
  · simp [sync_position_step, sync_close_open, h1, h2]
  · simp [sync_position_step, sync_close_open, h1, h2]
  · simp [manage_phantom_close, h1, h2, le_refl]
  · simp [manage_phantom_close, h1, h2, le_refl]
  · unfold sync_positions
    rw [List.map_map]
    exact List.map_congr_left fun p _ => sync_position_step_idem bal metrics now p

/-- Witness for C9: a concrete OPEN position with zero balance is closed
once and the pass is idempotent on a singleton list. -/
theorem reconciliation_balance_zero_witness :
    ({ token_address := "tok", symbol := "TOK", trade_type := "QUICK",
       entry_price := 1, entry_time := 3, sol_amount := 1, token_amount := 100,
       entry_mc := 400000, tx_hash := "T" } : LivePosition).status = "OPEN" ∧
    ((fun _ => (0 : ℤ)) "tok" = 0 ∧
     (sync_position_step (fun _ => 0) (fun _ => none) 10
        { token_address := "tok", symbol := "TOK", trade_type := "QUICK",
          entry_price := 1, entry_time := 3, sol_amount := 1, token_amount := 100,
          entry_mc := 400000, tx_hash := "T" }).status = "CLOSED") := by
  have h := reconciliation_balance_zero (fun _ => 0) (fun _ => none) {} 10
    [{ token_address := "tok", symbol := "TOK", trade_type := "QUICK",
       entry_price := 1, entry_time := 3, sol_amount := 1, token_amount := 100,
       entry_mc := 400000, tx_hash := "T" }]
    { token_address := "tok", symbol := "TOK", trade_type := "QUICK",
      entry_price := 1, entry_time := 3, sol_amount := 1, token_amount := 100,
      entry_mc := 400000, tx_hash := "T" } (by decide) (by decide)
  exact ⟨by decide, by decide, h.1⟩

/-! ## C8 — unconfirmed buys: entry vs. DCA step -/

/-- Counterexample to C8 as stated: a DCA-step buy whose expected
token-balance increase is never observed (`raw_after = raw_before`, so the
confirmation polling sees a zero increase) still mutates the position —
`dca_step` advances from 1 to 2 and the quote's estimated 500 tokens are
added to `token_amount`. -/
theorem unconfirmed_dca_buy_mutates :
    max 0 (({ sol_balance := 10, quote_out := some 500, swap_ok := true,
              raw_before := 7, raw_after := 7, now := 1 } : DcaEnv).raw_after -
           ({ sol_balance := 10, quote_out := some 500, swap_ok := true,
              raw_before := 7, raw_after := 7, now := 1 } : DcaEnv).raw_before) = 0 ∧
    (process_dca_step
        { sol_balance := 10, quote_out := some 500, swap_ok := true,
          raw_before := 7, raw_after := 7, now := 1 }
        { token_address := "tok", symbol := "TOK", trade_type := "QUICK",
          entry_price := 1, entry_time := 0, sol_amount := 3/100, token_amount := 100,
          entry_mc := 400000, tx_hash := "T", dca_step := 1, dca_total_sol := 3/100,
          dca_avg_price := 1 }
        (8/10) 400000).map (fun q => q.dca_step) = some 2 ∧
    (process_dca_step
        { sol_balance := 10, quote_out := some 500, swap_ok := true,
          raw_before := 7, raw_after := 7, now := 1 }
        { token_address := "tok", symbol := "TOK", trade_type := "QUICK",
          entry_price := 1, entry_time := 0, sol_amount := 3/100, token_amount := 100,
          entry_mc := 400000, tx_hash := "T", dca_step := 1, dca_total_sol := 3/100,
          dca_avg_price := 1 }
        (8/10) 400000).map (fun q => q.token_amount) = some 600 := by
  refine ⟨by decide, ?_, ?_⟩ <;>
    norm_num [process_dca_step, DCA_STEP_TRIGGERS, DCA_STEPS, MAX_POSITION_SOL,
      MIN_FEE_RESERVE, min_def, max_def]

/-- Claim C8, amended.  An initial-entry buy (`buy_token`) whose expected
token-balance increase is not observed within the confirmation timeout is
treated as failed: no position is created.  A DCA-step buy
(`process_dca_step`) whose balance increase is not observed is nevertheless
applied: `dca_step` advances and the quote's estimated token amount is
credited to the position. -/
theorem unconfirmed_buy_amended (benv : BuyEnv) (addr sym tt : String)
    (price mc sol : ℚ) (em : Option TokenMetrics)
    (denv : DcaEnv) (pos : LivePosition) (p : ℚ) (n : ℤ)
    (hb : benv.observed_increase = none)
    (h1 : pos.dca_step = 1) (h2 : 0 < pos.entry_price)
    (h3 : ((pos.entry_price - p) / pos.entry_price) * 100 ≥ 12)
    (h4 : denv.sol_balance - MIN_FEE_RESERVE ≥ 1/500)
    (h5 : denv.quote_out = some n) (h6 : n ≠ 0) (h7 : denv.swap_ok = true)
    (h8 : denv.raw_after ≤ denv.raw_before) :
    buy_token benv addr sym tt price mc sol em = none ∧
    (process_dca_step denv pos p mc).map (fun q => q.dca_step) = some 2 ∧
    (process_dca_step denv pos p mc).map (fun q => q.token_amount) =
      some (pos.token_amount + n) := by
  have hbt : buy_token benv addr sym tt price mc sol em = none := by
    cases hq : benv.quote_out with
    | none => simp [buy_token, hq]
    | some out =>
      simp only [buy_token, hq, hb]
      split_ifs <;> rfl
  have hds : (if pos.dca_step = 0 then 1 else pos.dca_step) = 1 := by simp [h1]
  have hobs : max 0 (denv.raw_after - denv.raw_before) = 0 := by omega
  have h2' : ¬ pos.entry_price ≤ 0 := not_le.mpr h2
  have hd : ¬ (((pos.entry_price - p) / pos.entry_price) * 100 < 12) := not_lt.mpr h3
  have husable : max 0 (denv.sol_balance - MIN_FEE_RESERVE) =
      denv.sol_balance - MIN_FEE_RESERVE := max_eq_right (by linarith)
  refine ⟨hbt, ?_, ?_⟩ <;>
  · simp only [process_dca_step, hds, h5, h7, DCA_STEP_TRIGGERS, DCA_STEPS]
    norm_num [h2', hd, husable, h6, hobs]
    exact ⟨_, ⟨⟨by norm_num [MAX_POSITION_SOL], by linarith⟩, rfl⟩, rfl⟩

/-- Witness for C8 (amended): a concrete failed-confirmation entry buy that
creates nothing, next to a concrete unconfirmed DCA step that fires. -/
theorem unconfirmed_buy_amended_witness :
    buy_token { quote_out := some 500, swap_ok := true, observed_increase := none, now := 1 }
      "tok" "TOK" "QUICK" 1 400000 (3/100) none = none ∧
    (process_dca_step
        { sol_balance := 10, quote_out := some 500, swap_ok := true,
          raw_before := 7, raw_after := 7, now := 1 }
        { token_address := "tok2", symbol := "TOK2", trade_type := "QUICK",
          entry_price := 1, entry_time := 0, sol_amount := 3/100, token_amount := 100,
          entry_mc := 400000, tx_hash := "T", dca_step := 1, dca_total_sol := 3/100,
          dca_avg_price := 1 }
        (8/10) 400000).map (fun q => q.dca_step) = some 2 ∧
    (process_dca_step
        { sol_balance := 10, quote_out := some 500, swap_ok := true,
          raw_before := 7, raw_after := 7, now := 1 }
        { token_address := "tok2", symbol := "TOK2", trade_type := "QUICK",
          entry_price := 1, entry_time := 0, sol_amount := 3/100, token_amount := 100,
          entry_mc := 400000, tx_hash := "T", dca_step := 1, dca_total_sol := 3/100,
          dca_avg_price := 1 }
        (8/10) 400000).map (fun q => q.token_amount) = some (100 + 500) :=
  unconfirmed_buy_amended
    { quote_out := some 500, swap_ok := true, observed_increase := none, now := 1 }
    "tok" "TOK" "QUICK" 1 400000 (3/100) none
    { sol_balance := 10, quote_out := some 500, swap_ok := true,
      raw_before := 7, raw_after := 7, now := 1 }
    { token_address := "tok2", symbol := "TOK2", trade_type := "QUICK",
      entry_price := 1, entry_time := 0, sol_amount := 3/100, token_amount := 100,
      entry_mc := 400000, tx_hash := "T", dca_step := 1, dca_total_sol := 3/100,
      dca_avg_price := 1 }
    (8/10) 500 (by decide) (by decide) (by decide) (by norm_num)
    (by norm_num [MIN_FEE_RESERVE]) (by decide) (by decide) (by decide) (by decide)

/-! ## C3 — structural lemmas on the tick phases -/

/-- Arming the trail touches only `trail_active`. -/
lemma arm_trail_fields (slot : PairSlot) (pnl a : ℚ) :
    (arm_trail slot pnl a).status = slot.status ∧
    (arm_trail slot pnl a).step2_price = slot.step2_price ∧
    (arm_trail slot pnl a).step3_price = slot.step3_price ∧
    (arm_trail slot pnl a).entry_price = slot.entry_price ∧
    (arm_trail slot pnl a).dca_step = slot.dca_step ∧
    (arm_trail slot pnl a).watch_price = slot.watch_price ∧
    (arm_trail slot pnl a).peak_price = slot.peak_price := by
  unfold arm_trail
  split_ifs <;> simp

/-- The DCA block of a tick either does nothing, fills step 2 (only from
`dca_step = 1`), or fills step 3 (only from `dca_step = 2`). -/
lemma dca_phase_cases (env : TickEnv) (slot : PairSlot) (budget : SlotBudget) (price : ℚ) :
    dca_phase env slot budget price = (slot, []) ∨
    (slot.dca_step = 1 ∧ ∃ t, dca_phase env slot budget price =
        (step2_fill slot budget price t, [TickEvent.step2Filled])) ∨
    (slot.dca_step = 2 ∧ ∃ t, dca_phase env slot budget price =
        (step3_fill slot budget price t, [TickEvent.step3Filled])) := by
  unfold dca_phase
  split_ifs with h1 h2
  · cases hbr : buy_tokens_result env (budget.budget_sol * DCA_SPLITS[1]!) with
    | none => exact Or.inl rfl
    | some t => exact Or.inr (Or.inl ⟨h1.1, t, rfl⟩)
  · cases hbr : buy_tokens_result env (budget.budget_sol * DCA_SPLITS[2]!) with
    | none => exact Or.inl rfl
    | some t => exact Or.inr (Or.inr ⟨h2.1, t, rfl⟩)
  · exact Or.inl rfl

/-- A step-2 fill keeps the trigger prices, the entry price, the status and
the trail state, and sets the step counter to 2. -/
lemma step2_fill_fields (slot : PairSlot) (budget : SlotBudget) (price t : ℚ) :
    (step2_fill slot budget price t).status = slot.status ∧
    (step2_fill slot budget price t).step2_price = slot.step2_price ∧
    (step2_fill slot budget price t).step3_price = slot.step3_price ∧
    (step2_fill slot budget price t).entry_price = slot.entry_price ∧
    (step2_fill slot budget price t).dca_step = 2 ∧
    (step2_fill slot budget price t).watch_price = slot.watch_price ∧
    (step2_fill slot budget price t).trail_active = slot.trail_active ∧
    (step2_fill slot budget price t).peak_price = slot.peak_price :=
  ⟨rfl, rfl, rfl, rfl, rfl, rfl, rfl, rfl⟩

/-- A step-3 fill keeps the trigger prices, the entry price, the status and
the trail state, and sets the step counter to 3. -/
lemma step3_fill_fields (slot : PairSlot) (budget : SlotBudget) (price t : ℚ) :
    (step3_fill slot budget price t).status = slot.status ∧
    (step3_fill slot budget price t).step2_price = slot.step2_price ∧
    (step3_fill slot budget price t).step3_price = slot.step3_price ∧
    (step3_fill slot budget price t).entry_price = slot.entry_price ∧
    (step3_fill slot budget price t).dca_step = 3 ∧
    (step3_fill slot budget price t).watch_price = slot.watch_price ∧
    (step3_fill slot budget price t).trail_active = slot.trail_active ∧
    (step3_fill slot budget price t).peak_price = slot.peak_price :=
  ⟨rfl, rfl, rfl, rfl, rfl, rfl, rfl, rfl⟩

/-- The trailing block either leaves the slot (apart from arming) and emits
nothing, fails the closing sell and emits `sellFailed`, or closes and
re-watches. -/
lemma trail_phase_cases (env : TickEnv) (slot : PairSlot) (budget : SlotBudget)
    (price mc pnl : ℚ) (evs : List TickEvent) :
    (∃ s', trail_phase env slot budget price mc pnl evs = (s', budget, evs) ∧
        s'.status = slot.status ∧ s'.step2_price = slot.step2_price ∧
        s'.step3_price = slot.step3_price ∧ s'.entry_price = slot.entry_price ∧
        s'.dca_step = slot.dca_step ∧ s'.watch_price = slot.watch_price) ∨
    (∃ s', trail_phase env slot budget price mc pnl evs =
        (s', budget, evs ++ [TickEvent.sellFailed]) ∧
        s'.status = slot.status ∧ s'.step2_price = slot.step2_price ∧
        s'.step3_price = slot.step3_price ∧ s'.entry_price = slot.entry_price ∧
        s'.dca_step = slot.dca_step ∧ s'.watch_price = slot.watch_price) ∨
    ((trail_phase env slot budget price mc pnl evs).1.status = "watching" ∧
     (trail_phase env slot budget price mc pnl evs).2.2 =
       evs ++ [TickEvent.closed, TickEvent.rewatch]) := by
  obtain ⟨f1, f2, f3, f4, f5, f6, f7⟩ := arm_trail_fields slot pnl (get_trail_params mc).1
  simp only [trail_phase]
  by_cases h2 : (arm_trail slot pnl (get_trail_params mc).1).trail_active = true
  · rw [if_pos h2]
    by_cases h3 : price ≤ (arm_trail slot pnl (get_trail_params mc).1).peak_price *
        (1 - (get_trail_params mc).2 / 100)
    · rw [if_pos h3]
      cases hs : env.sell_result with
      | none =>
        exact Or.inr (Or.inl ⟨arm_trail slot pnl (get_trail_params mc).1,
          by simp [close_slot, hs], f1, f2, f3, f4, f5, f6⟩)
      | some sol =>
        refine Or.inr (Or.inr ⟨?_, ?_⟩) <;> simp [close_slot, hs]
    · rw [if_neg h3]
      exact Or.inl ⟨arm_trail slot pnl (get_trail_params mc).1, rfl, f1, f2, f3, f4, f5, f6⟩
  · rw [if_neg h2]
    exact Or.inl ⟨arm_trail slot pnl (get_trail_params mc).1, rfl, f1, f2, f3, f4, f5, f6⟩

/-- An Open-branch tick that leaves the slot Open never lowers `dca_step`
and never touches the armed trigger prices or the recorded entry price; a
step-2 fill event can only come from `dca_step = 1` and a step-3 fill event
only from `dca_step = 2`. -/
lemma open_tick_spec (env : TickEnv) (slot : PairSlot) (budget : SlotBudget)
    (price mc : ℚ) :
    ((open_tick env slot budget price mc).1.status = "open" →
      (slot.dca_step ≤ (open_tick env slot budget price mc).1.dca_step ∧
       (open_tick env slot budget price mc).1.status = slot.status ∧
       (open_tick env slot budget price mc).1.step2_price = slot.step2_price ∧
       (open_tick env slot budget price mc).1.step3_price = slot.step3_price ∧
       (open_tick env slot budget price mc).1.entry_price = slot.entry_price)) ∧
    (TickEvent.step2Filled ∈ (open_tick env slot budget price mc).2.2 →
      slot.dca_step = 1) ∧
    (TickEvent.step3Filled ∈ (open_tick env slot budget price mc).2.2 →
      slot.dca_step = 2) := by
  simp only [open_tick]
  set pnl := ((price - slot.dca_avg_price) / slot.dca_avg_price) * 100 with hpnl
  set s1 := (if pnl > slot.max_pnl_pct then { slot with max_pnl_pct := pnl } else slot)
    with hs1
  set s2 := (if price > s1.peak_price then { s1 with peak_price := price } else s1)
    with hs2
  have hf : s2.status = slot.status ∧ s2.step2_price = slot.step2_price ∧
      s2.step3_price = slot.step3_price ∧ s2.entry_price = slot.entry_price ∧
      s2.dca_step = slot.dca_step := by
    rw [hs2, hs1]
    split_ifs <;> simp
  obtain ⟨g1, g2, g3, g4, g5⟩ := hf
  rcases dca_phase_cases env s2 budget price with hd | ⟨hd1, t, hd⟩ | ⟨hd1, t, hd⟩ <;>
    rw [hd]
  · rcases trail_phase_cases env s2 budget price mc pnl [] with
      ⟨s', he, e1, e2, e3, e4, e5, _⟩ | ⟨s', he, e1, e2, e3, e4, e5, _⟩ | ⟨he1, he2⟩ <;>
      [rw [he]; rw [he]; skip] <;>
      refine ⟨?_, ?_, ?_⟩ <;> simp_all
  · obtain ⟨k1, k2, k3, k4, k5, _, _, _⟩ := step2_fill_fields s2 budget price t
    rcases trail_phase_cases env (step2_fill s2 budget price t) budget price mc pnl
        [TickEvent.step2Filled] with
      ⟨s', he, e1, e2, e3, e4, e5, _⟩ | ⟨s', he, e1, e2, e3, e4, e5, _⟩ | ⟨he1, he2⟩ <;>
      [rw [he]; rw [he]; skip] <;>
      refine ⟨?_, ?_, ?_⟩ <;> simp_all <;> omega
  · obtain ⟨k1, k2, k3, k4, k5, _, _, _⟩ := step3_fill_fields s2 budget price t
    rcases trail_phase_cases env (step3_fill s2 budget price t) budget price mc pnl
        [TickEvent.step3Filled] with
      ⟨s', he, e1, e2, e3, e4, e5, _⟩ | ⟨s', he, e1, e2, e3, e4, e5, _⟩ | ⟨he1, he2⟩ <;>
      [rw [he]; rw [he]; skip] <;>
      refine ⟨?_, ?_, ?_⟩ <;> simp_all <;> omega

/-- A Watching-branch tick never lowers the reference price, emits at most
an `entered` event, and on the Watching→Open transition records the fill
price as the entry price, derives both trigger prices from it via the tier
table, and sets the step counter to 1 with the average seeded at the fill
price. -/
lemma watch_tick_spec (env : TickEnv) (slot : PairSlot) (budget : SlotBudget)
    (price mc : ℚ) (hw : slot.status = "watching") :
    slot.watch_price ≤ (watch_tick env slot budget price mc).1.watch_price ∧
    ((watch_tick env slot budget price mc).1.status = "open" →
      ((watch_tick env slot budget price mc).1.entry_price = price ∧
       (watch_tick env slot budget price mc).1.step2_price =
         price * (1 - (get_dca_drops mc).1 / 100) ∧
       (watch_tick env slot budget price mc).1.step3_price =
         price * (1 - (get_dca_drops mc).2 / 100) ∧
       (watch_tick env slot budget price mc).1.dca_step = 1 ∧
       (watch_tick env slot budget price mc).1.dca_avg_price = price ∧
       (watch_tick env slot budget price mc).1.total_sol_invested =
         budget.budget_sol * DCA_SPLITS[0]! ∧
       (watch_tick env slot budget price mc).1.step1_sol =
         budget.budget_sol * DCA_SPLITS[0]! ∧
       (watch_tick env slot budget price mc).1.peak_price = price)) ∧
    (∀ e ∈ (watch_tick env slot budget price mc).2.2, e = TickEvent.entered) := by
  simp only [watch_tick]
  set s1 := (if price > slot.watch_price then { slot with watch_price := price } else slot)
    with hs1
  have hwp : slot.watch_price ≤ s1.watch_price := by
    rw [hs1]
    split_ifs with h
    · simp
      linarith
    · simp
  have hst : s1.status = slot.status := by
    rw [hs1]
    split_ifs <;> simp
  split_ifs with hdip
  · cases hbr : buy_tokens_result env (budget.budget_sol * DCA_SPLITS[0]!) with
    | none =>
      refine ⟨hwp, ?_, by simp⟩
      rw [hst, hw]
      intro habs
      simp at habs
    | some t =>
      refine ⟨hwp, fun _ => ?_, by simp⟩
      exact ⟨rfl, rfl, rfl, rfl, rfl, rfl, rfl, rfl⟩
  · refine ⟨hwp, ?_, by simp⟩
    rw [hst, hw]
    intro habs
    simp at habs

/-! ## C3 — monotone DCA, triggers computed once, no double fill -/

/-- Claim C3.  While a slot stays Open across a tick, `dca_step` never
decreases and the step-2/step-3 trigger prices and recorded entry price are
never recomputed; at the Watching→Open transition both trigger prices are
derived exactly once from the step-1 fill price via the tier table; and a
step-2 fill event can only occur from `dca_step = 1`, a step-3 fill only
from `dca_step = 2`, so no step can fill twice. -/
theorem dca_monotonic (env : TickEnv) (slot : PairSlot) (budget : SlotBudget)
    (price mc : ℚ) :
    (slot.status = "open" →
      (process_slot env slot budget price mc).1.status = "open" →
      (slot.dca_step ≤ (process_slot env slot budget price mc).1.dca_step ∧
       (process_slot env slot budget price mc).1.step2_price = slot.step2_price ∧
       (process_slot env slot budget price mc).1.step3_price = slot.step3_price ∧
       (process_slot env slot budget price mc).1.entry_price = slot.entry_price)) ∧
    (slot.status = "watching" →
      (process_slot env slot budget price mc).1.status = "open" →
      ((process_slot env slot budget price mc).1.entry_price = price ∧
       (process_slot env slot budget price mc).1.step2_price =
         price * (1 - (get_dca_drops mc).1 / 100) ∧
       (process_slot env slot budget price mc).1.step3_price =
         price * (1 - (get_dca_drops mc).2 / 100) ∧
       (process_slot env slot budget price mc).1.dca_step = 1)) ∧
    (TickEvent.step2Filled ∈ (process_slot env slot budget price mc).2.2 →
      slot.dca_step = 1) ∧
    (TickEvent.step3Filled ∈ (process_slot env slot budget price mc).2.2 →
      slot.dca_step = 2) := by
  unfold process_slot
  split_ifs with he hp hw ho
  · simp_all
  · simp_all
  · obtain ⟨w1, w2, w3⟩ := watch_tick_spec env slot budget price mc hw
    refine ⟨fun hopen => absurd (hw.symm.trans hopen) (by simp), ?_, ?_, ?_⟩
    · intro _ hopen
      obtain ⟨e1, e2, e3, e4, _⟩ := w2 hopen
      exact ⟨e1, e2, e3, e4⟩
    · intro hmem
      have := w3 _ hmem
      simp at this
    · intro hmem
      have := w3 _ hmem
      simp at this
  · obtain ⟨o1, o2, o3⟩ := open_tick_spec env slot budget price mc
    refine ⟨fun _ hopen => ?_, fun hwat => absurd (hwat.symm.trans ho) (by simp), o2, o3⟩
    obtain ⟨d1, _, d2, d3, d4⟩ := o1 hopen
    exact ⟨d1, d2, d3, d4⟩
  · simp_all

/-- Witness for C3 at a concrete Open slot whose step-2 trigger is crossed
with a successful buy: the step advances 1 → 2 and the armed prices are
untouched. -/
theorem dca_monotonic_witness :
    ({ slot_id := 1, status := "open", token_address := "tok", symbol := "TOK",
       entry_price := 1, step2_price := 85/100, step3_price := 65/100,
       dca_avg_price := 1, dca_step := 1, step1_sol := 15/100,
       total_sol_invested := 15/100, peak_price := 1 } : PairSlot).status = "open" ∧
    (TickEvent.step2Filled ∈
      (process_slot { buy_result := some 100, sell_result := none, now := 7 }
        { slot_id := 1, status := "open", token_address := "tok", symbol := "TOK",
          entry_price := 1, step2_price := 85/100, step3_price := 65/100,
          dca_avg_price := 1, dca_step := 1, step1_sol := 15/100,
          total_sol_invested := 15/100, peak_price := 1 }
        (init_budget 1 1) (8/10) 400000).2.2 →
      ({ slot_id := 1, status := "open", token_address := "tok", symbol := "TOK",
         entry_price := 1, step2_price := 85/100, step3_price := 65/100,
         dca_avg_price := 1, dca_step := 1, step1_sol := 15/100,
         total_sol_invested := 15/100, peak_price := 1 } : PairSlot).dca_step = 1) :=
  ⟨rfl,
   (dca_monotonic { buy_result := some 100, sell_result := none, now := 7 }
      { slot_id := 1, status := "open", token_address := "tok", symbol := "TOK",
        entry_price := 1, step2_price := 85/100, step3_price := 65/100,
        dca_avg_price := 1, dca_step := 1, step1_sol := 15/100,
        total_sol_invested := 15/100, peak_price := 1 }
      (init_budget 1 1) (8/10) 400000).2.2.1⟩

/-! ## C6 — dip-reference ratchet and entry trigger -/

/-- C6 scenario state: a Watching slot armed with a 10 % entry dip whose
watch began at price 1.00. -/
def watch_scene_slot : PairSlot :=
  { slot_id := 1, status := "watching", token_address := "tok", symbol := "TOK"
    , watch_price := 1, entry_dip_pct := 10 }

/-- C6 scenario environment: the entry buy succeeds. -/
def watch_scene_env : TickEnv := { buy_result := some 100, now := 2 }

/-- C6 scenario budget. -/
def watch_scene_budget : SlotBudget := init_budget 1 1

/-- Claim C6.  While a slot is Watching the stored reference price never
decreases across a tick, and entry fires exactly when the dip measured from
the ratcheted reference reaches the armed dip percentage: with a 10 % dip,
watching from 1.00, a rise to 1.20 ratchets the reference to 1.20, a fall
to 1.10 (an 8.3 % dip from 1.20) does not trigger entry, and a fall to 1.08
(a 10 % dip from 1.20) does, filling at 1.08. -/
theorem dip_reference_ratchet (env : TickEnv) (slot : PairSlot) (budget : SlotBudget)
    (price mc : ℚ) (hw : slot.status = "watching") :
    slot.watch_price ≤ (process_slot env slot budget price mc).1.watch_price ∧
    (process_slot watch_scene_env watch_scene_slot watch_scene_budget
        (6/5) 400000).1.status = "watching" ∧
    (process_slot watch_scene_env watch_scene_slot watch_scene_budget
        (6/5) 400000).1.watch_price = 6/5 ∧
    (process_slot watch_scene_env { watch_scene_slot with watch_price := 6/5 }
        watch_scene_budget (11/10) 400000).1.status = "watching" ∧
    (process_slot watch_scene_env { watch_scene_slot with watch_price := 6/5 }
        watch_scene_budget (11/10) 400000).1.watch_price = 6/5 ∧
    (process_slot watch_scene_env { watch_scene_slot with watch_price := 6/5 }
        watch_scene_budget (27/25) 400000).1.status = "open" ∧
    (process_slot watch_scene_env { watch_scene_slot with watch_price := 6/5 }
        watch_scene_budget (27/25) 400000).1.entry_price = 27/25 := by
  have hratchet : slot.watch_price ≤ (process_slot env slot budget price mc).1.watch_price := by
    unfold process_slot
    rw [if_neg (by rw [hw]; decide), if_pos hw]
    by_cases hp : price ≤ 0
    · rw [if_pos hp]
    · rw [if_neg hp]
      exact (watch_tick_spec env slot budget price mc hw).1
  have h1 : process_slot watch_scene_env watch_scene_slot watch_scene_budget
      (6/5) 400000 = ({ watch_scene_slot with watch_price := 6/5 },
        watch_scene_budget, []) := by
    norm_num [watch_scene_slot, watch_scene_env, watch_scene_budget, process_slot,
      watch_tick, buy_tokens_result, init_budget, DCA_SPLITS, MIN_TRADE_SOL,
      get_dca_drops]
    decide
  have h2 : process_slot watch_scene_env { watch_scene_slot with watch_price := 6/5 }
      watch_scene_budget (11/10) 400000 = ({ watch_scene_slot with watch_price := 6/5 },
        watch_scene_budget, []) := by
    norm_num [watch_scene_slot, watch_scene_env, watch_scene_budget, process_slot,
      watch_tick, buy_tokens_result, init_budget, DCA_SPLITS, MIN_TRADE_SOL,
      get_dca_drops]
  have h3 : (process_slot watch_scene_env { watch_scene_slot with watch_price := 6/5 }
      watch_scene_budget (27/25) 400000).1.status = "open" ∧
      (process_slot watch_scene_env { watch_scene_slot with watch_price := 6/5 }
        watch_scene_budget (27/25) 400000).1.entry_price = 27/25 := by
    norm_num [watch_scene_slot, watch_scene_env, watch_scene_budget, process_slot,
      watch_tick, buy_tokens_result, init_budget, DCA_SPLITS, MIN_TRADE_SOL,
      get_dca_drops]
    rw [if_neg (show ¬ ("watching" = "empty") from by decide)]
    exact ⟨rfl, rfl⟩
  rw [h1, h2]
  exact ⟨hratchet, rfl, rfl, rfl, rfl, h3.1, h3.2⟩

/-- Witness for C6: the scenario slot itself is Watching and its reference
price never decreases on the 1.20 tick. -/
theorem dip_reference_ratchet_witness :
    watch_scene_slot.status = "watching" ∧
    watch_scene_slot.watch_price ≤
      (process_slot watch_scene_env watch_scene_slot watch_scene_budget
        (6/5) 400000).1.watch_price :=
  ⟨rfl, (dip_reference_ratchet watch_scene_env watch_scene_slot watch_scene_budget
    (6/5) 400000 rfl).1⟩

/-! ## C4 — trailing-exit scenario -/

/-- On an Open slot with a positive price, a tick is exactly the Open
branch. -/
lemma process_slot_open (env : TickEnv) (slot : PairSlot) (budget : SlotBudget)
    (price mc : ℚ) (ho : slot.status = "open") (hp : 0 < price) :
    process_slot env slot budget price mc = open_tick env slot budget price mc := by
  unfold process_slot
  rw [if_neg (by rw [ho]; decide), if_neg (not_le.mpr hp), if_neg (by rw [ho]; decide),
    if_pos ho]

/-- C4 scenario state: an Open, fully-invested slot with average fill price
1, peak price 1 and no trail armed. -/
def trail_scene_slot : PairSlot :=
  { slot_id := 1, status := "open", token_address := "tok", symbol := "TOK"
    , entry_price := 1, dca_avg_price := 1, peak_price := 1
    , total_sol_invested := 1, dca_step := 3, token_amount := 1000 }

/-- C4 scenario environment: a closing sell returns the invested capital. -/
def trail_scene_env : TickEnv :=
  { sell_result := some 1, rewatch_price := 1, rewatch_mc := 400000, now := 9 }

/-- C4 scenario budget. -/
def trail_scene_budget : SlotBudget := init_budget 1 1

/-- The C4 slot after a tick at price 1.14: peak ratcheted, trail armed. -/
def trail_scene_after_114 : PairSlot :=
  { trail_scene_slot with max_pnl_pct := 14, peak_price := 57/50, trail_active := true }

/-- The C4 slot after a tick at price 1.13: peak ratcheted, trail armed. -/
def trail_scene_after_113 : PairSlot :=
  { trail_scene_slot with max_pnl_pct := 13, peak_price := 113/100, trail_active := true }

/-- Ticking the C4 slot at 1.14 arms the trail and leaves it Open. -/
lemma trail_tick_114 :
    process_slot trail_scene_env trail_scene_slot trail_scene_budget (114/100) 400000 =
      (trail_scene_after_114, trail_scene_budget, []) := by
  rw [process_slot_open _ _ _ _ _ rfl (by norm_num)]
  norm_num [trail_scene_slot, trail_scene_env, trail_scene_budget, trail_scene_after_114,
    open_tick, dca_phase, trail_phase, arm_trail, buy_tokens_result,
    get_trail_params, init_budget, DCA_SPLITS, MIN_TRADE_SOL]

/-- Ticking the armed C4 slot at 1.10 neither exits nor changes it. -/
lemma trail_tick_114_110 :
    process_slot trail_scene_env trail_scene_after_114 trail_scene_budget (11/10) 400000 =
      (trail_scene_after_114, trail_scene_budget, []) := by
  rw [process_slot_open _ _ _ _ _ rfl (by norm_num)]
  norm_num [trail_scene_slot, trail_scene_env, trail_scene_budget, trail_scene_after_114,
    open_tick, dca_phase, trail_phase, arm_trail, buy_tokens_result,
    get_trail_params, init_budget, DCA_SPLITS, MIN_TRADE_SOL]

/-- Ticking the C4 slot at 1.13 arms the trail and leaves it Open. -/
lemma trail_tick_113 :
    process_slot trail_scene_env trail_scene_slot trail_scene_budget (113/100) 400000 =
      (trail_scene_after_113, trail_scene_budget, []) := by
  rw [process_slot_open _ _ _ _ _ rfl (by norm_num)]
  norm_num [trail_scene_slot, trail_scene_env, trail_scene_budget, trail_scene_after_113,
    open_tick, dca_phase, trail_phase, arm_trail, buy_tokens_result,
    get_trail_params, init_budget, DCA_SPLITS, MIN_TRADE_SOL]

/-- Ticking the armed C4 slot at 1.09 (PnL exactly +9 %) does not exit:
1.09 is still above the trail floor 0.96 · 1.13 = 1.0848. -/
lemma trail_tick_113_109 :
    process_slot trail_scene_env trail_scene_after_113 trail_scene_budget (109/100) 400000 =
      (trail_scene_after_113, trail_scene_budget, []) := by
  rw [process_slot_open _ _ _ _ _ rfl (by norm_num)]
  norm_num [trail_scene_slot, trail_scene_env, trail_scene_budget, trail_scene_after_113,
    open_tick, dca_phase, trail_phase, arm_trail, buy_tokens_result,
    get_trail_params, init_budget, DCA_SPLITS, MIN_TRADE_SOL]

/-- Counterexample to C4 as stated.  First half: a PnL rise to +14 % *does*
arm the trail (the claim says it never arms), though no exit fires on the
fall to +10 %.  Second half: after arming at +13 %, the first tick at which
PnL is at most 9 % — a fall to exactly +9 % — does *not* exit (the trail
floor is multiplicative: price must reach 0.96 · 1.13 = 1.0848, i.e. PnL
≤ 8.48 %). -/
theorem trail_scenario_counterexample :
    (process_slot trail_scene_env trail_scene_slot trail_scene_budget
        (114/100) 400000).1.trail_active = true ∧
    ((109 : ℚ)/100 - 1) / 1 * 100 ≤ 9 ∧
    (process_slot trail_scene_env trail_scene_after_113 trail_scene_budget
        (109/100) 400000).1.status = "open" ∧
    (process_slot trail_scene_env trail_scene_after_113 trail_scene_budget
        (109/100) 400000).2.2 = [] := by
  rw [trail_tick_114, trail_tick_113_109]
  refine ⟨rfl, by norm_num, rfl, rfl⟩

/-- Claim C4, amended.  With trail-arm threshold 12 % and trail distance 4 %
of the peak price: a PnL rise to +14 % arms the trail but a fall back to
+10 % does not exit (1.10 is above the floor 0.96 · 1.14 = 1.0944); a rise
to +13 % arms the trail, a fall to exactly +9 % does not exit, and the
position exits at the first tick at which the price is at most 96 % of the
peak — with peak PnL +13 % that is PnL ≤ 8.48 %, e.g. +8.4 %. -/
theorem trail_scenario_amended :
    (process_slot trail_scene_env trail_scene_slot trail_scene_budget
        (114/100) 400000).1.trail_active = true ∧
    (process_slot trail_scene_env trail_scene_after_114 trail_scene_budget
        (11/10) 400000).1.status = "open" ∧
    (process_slot trail_scene_env trail_scene_after_114 trail_scene_budget
        (11/10) 400000).2.2 = [] ∧
    (process_slot trail_scene_env trail_scene_slot trail_scene_budget
        (113/100) 400000).1.trail_active = true ∧
    (process_slot trail_scene_env trail_scene_after_113 trail_scene_budget
        (109/100) 400000).1.status = "open" ∧
    (271 : ℚ)/250 ≤ trail_scene_after_113.peak_price * (1 - 4/100) ∧
    (process_slot trail_scene_env trail_scene_after_113 trail_scene_budget
        (271/250) 400000).1.status = "watching" ∧
    (process_slot trail_scene_env trail_scene_after_113 trail_scene_budget
        (271/250) 400000).2.2 = [TickEvent.closed, TickEvent.rewatch] := by
  rw [trail_tick_114, trail_tick_114_110, trail_tick_113, trail_tick_113_109]
  refine ⟨rfl, rfl, rfl, rfl, rfl, ?_, ?_, ?_⟩
  · norm_num [trail_scene_after_113, trail_scene_slot]
  · rw [process_slot_open _ _ _ _ _ rfl (by norm_num)]
    norm_num [trail_scene_slot, trail_scene_env, trail_scene_budget, trail_scene_after_113,
      open_tick, dca_phase, trail_phase, arm_trail, buy_tokens_result,
      get_trail_params, close_slot, settle_close, reset_slot, get_adjusted_entry_dip,
      get_entry_dip, init_budget, DCA_SPLITS, MIN_TRADE_SOL]
  · rw [process_slot_open _ _ _ _ _ rfl (by norm_num)]
    norm_num [trail_scene_slot, trail_scene_env, trail_scene_budget, trail_scene_after_113,
      open_tick, dca_phase, trail_phase, arm_trail, buy_tokens_result,
      get_trail_params, close_slot, settle_close, reset_slot, get_adjusted_entry_dip,
      get_entry_dip, init_budget, DCA_SPLITS, MIN_TRADE_SOL]

/-! ## C5 — a DCA fill and an exit are not mutually exclusive -/

/-- A trail armed before the tick stays armed through the arming line. -/
lemma arm_trail_active (slot : PairSlot) (pnl a : ℚ) (h : slot.trail_active = true) :
    (arm_trail slot pnl a).trail_active = true := by
  unfold arm_trail
  split_ifs <;> simp [h]

/-- C5 scenario state: an Open slot at step 1 whose trail is already armed
(PnL once peaked at +20 %), with the step-2 trigger at 0.85 and the peak at
1.20. -/
def exclusivity_slot : PairSlot :=
  { slot_id := 1, status := "open", token_address := "tok", symbol := "TOK"
    , entry_price := 1, step2_price := 85/100, step3_price := 65/100
    , dca_avg_price := 1, dca_step := 1, step1_sol := 15/100
    , total_sol_invested := 15/100, token_amount := 100
    , trail_active := true, peak_price := 6/5, max_pnl_pct := 20 }

/-- C5 scenario environment: both the step-2 buy and the closing sell land. -/
def exclusivity_env : TickEnv :=
  { buy_result := some 100, sell_result := some 1, rewatch_price := 1/2
    , rewatch_mc := 400000, now := 4 }

/-- C5 scenario budget. -/
def exclusivity_budget : SlotBudget := init_budget 1 1

/-- One tick of the C5 scenario fills step 2 AND closes the slot: the
emitted events are the step-2 fill followed by the close and re-watch. -/
lemma exclusivity_tick_events :
    (process_slot exclusivity_env exclusivity_slot exclusivity_budget
      (1/2) 400000).2.2 =
      [TickEvent.step2Filled, TickEvent.closed, TickEvent.rewatch] := by
  rw [process_slot_open _ _ _ _ _ rfl (by norm_num)]
  norm_num [exclusivity_slot, exclusivity_env, exclusivity_budget, open_tick,
    dca_phase, step2_fill, trail_phase, arm_trail, buy_tokens_result, get_trail_params,
    close_slot, settle_close, reset_slot, get_adjusted_entry_dip, get_entry_dip,
    init_budget, DCA_SPLITS, MIN_TRADE_SOL]

/-- Counterexample to C5 as stated: in this tick a DCA tranche fills
(`step2Filled` is emitted) and an exit is executed for the same slot in the
same tick (`closed` is emitted). -/
theorem tick_exclusivity_counterexample :
    TickEvent.step2Filled ∈
      (process_slot exclusivity_env exclusivity_slot exclusivity_budget
        (1/2) 400000).2.2 ∧
    TickEvent.closed ∈
      (process_slot exclusivity_env exclusivity_slot exclusivity_budget
        (1/2) 400000).2.2 := by
  rw [exclusivity_tick_events]
  exact ⟨by decide, by decide⟩

/-- Claim C5, amended.  Within one `process_slot` tick on an Open slot, DCA
triggers are evaluated before exit conditions, but a tranche fill and an
exit are not mutually exclusive: whenever the step-2 trigger is crossed
with the trail already armed and the price at or below the trail floor, and
both swaps land, the tick fills the tranche and then closes the slot — the
fill event is followed by the close in the same tick's event list. -/
theorem tick_exclusivity_amended (env : TickEnv) (slot : PairSlot)
    (budget : SlotBudget) (price mc : ℚ)
    (ho : slot.status = "open") (hp : 0 < price)
    (h1 : slot.dca_step = 1) (h2 : price ≤ slot.step2_price)
    (ht : slot.trail_active = true)
    (htr : price ≤ slot.peak_price * (1 - (get_trail_params mc).2 / 100))
    (hbuy : MIN_TRADE_SOL ≤ budget.budget_sol * DCA_SPLITS[1]!)
    (t : ℚ) (hbr : env.buy_result = some t)
    (sol : ℚ) (hsr : env.sell_result = some sol) :
    (process_slot env slot budget price mc).2.2 =
      [TickEvent.step2Filled, TickEvent.closed, TickEvent.rewatch] := by
  have hpk0 : 0 < slot.peak_price := by
    by_contra hn
    push_neg at hn
    have : slot.peak_price * (1 - (get_trail_params mc).2 / 100) ≤ 0 := by
      have : (0 : ℚ) < 1 - (get_trail_params mc).2 / 100 := by norm_num [get_trail_params]
      nlinarith
    linarith
  have hple : ¬ (price > slot.peak_price) := by
    push_neg
    calc price ≤ slot.peak_price * (1 - (get_trail_params mc).2 / 100) := htr
    _ ≤ slot.peak_price := by
        have h96 : (1 : ℚ) - (get_trail_params mc).2 / 100 ≤ 1 := by
          norm_num [get_trail_params]
        nlinarith
  rw [process_slot_open _ _ _ _ _ ho hp]
  simp only [open_tick]
  set pnl := ((price - slot.dca_avg_price) / slot.dca_avg_price) * 100 with hpnl
  set s1 := (if pnl > slot.max_pnl_pct then { slot with max_pnl_pct := pnl } else slot)
    with hs1
  have f1 : s1.dca_step = slot.dca_step := by rw [hs1]; split_ifs <;> simp
  have f2 : s1.step2_price = slot.step2_price := by rw [hs1]; split_ifs <;> simp
  have f3 : s1.trail_active = slot.trail_active := by rw [hs1]; split_ifs <;> simp
  have f4 : s1.peak_price = slot.peak_price := by rw [hs1]; split_ifs <;> simp
  rw [if_neg (by rw [f4]; exact hple)]
  have hdca : dca_phase env s1 budget price =
      (step2_fill s1 budget price t, [TickEvent.step2Filled]) := by
    unfold dca_phase
    rw [if_pos ⟨f1.trans h1, f2 ▸ h2⟩]
    unfold buy_tokens_result
    rw [if_neg (not_lt.mpr hbuy), hbr]
  rw [hdca]
  simp only [trail_phase]
  obtain ⟨k1, k2, k3, k4, k5, k6, k7, k8⟩ := step2_fill_fields s1 budget price t
  have hta : (arm_trail (step2_fill s1 budget price t) pnl
      (get_trail_params mc).1).trail_active = true :=
    arm_trail_active _ _ _ (k7.trans (f3.trans ht))
  rw [if_pos hta]
  obtain ⟨g1, g2, g3, g4, g5, g6, g7⟩ :=
    arm_trail_fields (step2_fill s1 budget price t) pnl (get_trail_params mc).1
  rw [if_pos (by rw [g7, k8, f4]; exact htr)]
  simp [close_slot, hsr]

/-- Witness for C5 (amended) at the concrete scenario slot. -/
theorem tick_exclusivity_amended_witness :
    exclusivity_slot.status = "open" ∧
    (process_slot exclusivity_env exclusivity_slot exclusivity_budget
        (1/2) 400000).2.2 =
      [TickEvent.step2Filled, TickEvent.closed, TickEvent.rewatch] :=
  ⟨rfl,
   tick_exclusivity_amended exclusivity_env exclusivity_slot exclusivity_budget
     (1/2) 400000 rfl (by norm_num) rfl (by norm_num [exclusivity_slot]) rfl
     (by norm_num [exclusivity_slot, get_trail_params])
     (by norm_num [exclusivity_budget, init_budget, MIN_TRADE_SOL, DCA_SPLITS])
     100 rfl 1 rfl⟩

/-! ## C7 — capital-weighted running average fill price -/

/-- Claim C7.  Entry seeds the running average at the step-1 fill price with
the step-1 tranche as the committed capital; each of steps 2 and 3 then
recomputes it as `(old_avg · old_capital + step_price · step_capital) /
new_capital`; composing both steps yields the capital-weighted mean of the
three individual fill prices. -/
theorem weighted_average_fill (slot : PairSlot) (budget : SlotBudget)
    (p2 p3 t2 t3 : ℚ) (env : TickEnv) (ws : PairSlot) (wb : SlotBudget) (pr mcq : ℚ)
    (hww : ws.status = "watching")
    (h1 : slot.dca_avg_price = slot.entry_price)
    (h2 : slot.total_sol_invested = slot.step1_sol)
    (hT2 : slot.step1_sol + budget.budget_sol * DCA_SPLITS[1]! ≠ 0) :
    ((watch_tick env ws wb pr mcq).1.status = "open" →
      (watch_tick env ws wb pr mcq).1.dca_avg_price =
        (watch_tick env ws wb pr mcq).1.entry_price ∧
      (watch_tick env ws wb pr mcq).1.total_sol_invested =
        (watch_tick env ws wb pr mcq).1.step1_sol) ∧
    (step2_fill slot budget p2 t2).dca_avg_price =
      (slot.dca_avg_price * slot.total_sol_invested +
        p2 * (budget.budget_sol * DCA_SPLITS[1]!)) /
        (slot.total_sol_invested + budget.budget_sol * DCA_SPLITS[1]!) ∧
    (∀ s' : PairSlot, (step3_fill s' budget p3 t3).dca_avg_price =
      (s'.dca_avg_price * s'.total_sol_invested +
        p3 * (budget.budget_sol * DCA_SPLITS[2]!)) /
        (s'.total_sol_invested + budget.budget_sol * DCA_SPLITS[2]!)) ∧
    (step3_fill (step2_fill slot budget p2 t2) budget p3 t3).dca_avg_price =
      (slot.entry_price * slot.step1_sol + p2 * (budget.budget_sol * DCA_SPLITS[1]!) +
        p3 * (budget.budget_sol * DCA_SPLITS[2]!)) /
        (slot.step1_sol + budget.budget_sol * DCA_SPLITS[1]! +
          budget.budget_sol * DCA_SPLITS[2]!) := by
  refine ⟨?_, ?_, ?_, ?_⟩
  · intro hopen
    obtain ⟨e1, _, _, _, e5, e6, e7, _⟩ := (watch_tick_spec env ws wb pr mcq hww).2.1 hopen
    exact ⟨e5.trans e1.symm, e6.trans e7.symm⟩
  · unfold step2_fill
    rw [h1, h2]
    ring
  · intro s'
    unfold step3_fill
    ring
  · unfold step2_fill step3_fill
    simp only
    rw [h2]
    field_simp

/-- Witness for C7 at a concrete step-1 slot with entry price 1, tranche
prices 0.85 and 0.65, and a unit budget. -/
theorem weighted_average_fill_witness :
    (step3_fill
        (step2_fill
          { slot_id := 1, status := "open", token_address := "tok", symbol := "TOK"
            , entry_price := 1, dca_avg_price := 1, dca_step := 1
            , step1_sol := 15/100, total_sol_invested := 15/100 }
          (init_budget 1 1) (85/100) 10)
        (init_budget 1 1) (65/100) 20).dca_avg_price =
      ((1 : ℚ) * (15/100) + (85/100) * ((init_budget 1 1).budget_sol * DCA_SPLITS[1]!) +
        (65/100) * ((init_budget 1 1).budget_sol * DCA_SPLITS[2]!)) /
        ((15/100) + (init_budget 1 1).budget_sol * DCA_SPLITS[1]! +
          (init_budget 1 1).budget_sol * DCA_SPLITS[2]!) :=
  (weighted_average_fill
    { slot_id := 1, status := "open", token_address := "tok", symbol := "TOK"
      , entry_price := 1, dca_avg_price := 1, dca_step := 1
      , step1_sol := 15/100, total_sol_invested := 15/100 }
    (init_budget 1 1) (85/100) (65/100) 10 20
    { buy_result := none } { slot_id := 2, status := "watching" } (init_budget 2 1) 1 400000
    rfl rfl rfl (by norm_num [init_budget, DCA_SPLITS])).2.2.2

end PyScanStr
